import Mathlib

/-!
Shallow embedding of the sleep feasibility engine of elogind
(src/shared/sleep-config.c): the configuration loader `parse_sleep_config`,
the kernel capability probes `sleep_state_supported` / `sleep_mode_supported`,
the decision engine `can_sleep_internal` with its composite helper `can_s2h`,
and the public query `can_sleep`.

C functions here return `int` with the usual convention: a negative errno is
an error, `0` means no/unsupported, a positive value means yes/supported.
We model those returns as `Int`.  Kernel files, the swap oracle and the
wake-alarm clock oracle are modelled by an explicit environment record.
-/

namespace SleepConfigC

/-- errno value `ENOMSG` (used as `SYNTHETIC_ERRNO(ENOMSG)` for "no sleep
state configured", sleep-config.c:121). -/
def ENOMSG : Int := 42

/-- errno value `ENOSPC` (returned as `-ENOSPC` when swap is insufficient,
sleep-config.c:247). -/
def ENOSPC : Int := 28

/-- `usec_t` infinity sentinel, `UINT64_MAX`. -/
def USEC_INFINITY : Nat := 2 ^ 64 - 1

/-- `DEFAULT_SUSPEND_ESTIMATION_USEC = 1 * USEC_PER_HOUR` (sleep-config.c:25). -/
def DEFAULT_SUSPEND_ESTIMATION_USEC : Nat := 3600000000

/-- The `SleepOperation` enum (sleep-config.h / sleep-config.c:27-32).  The
first three are primitive, the fourth is the composite operation. -/
inductive SleepOperation where
  | SLEEP_SUSPEND
  | SLEEP_HIBERNATE
  | SLEEP_HYBRID_SLEEP
  | SLEEP_SUSPEND_THEN_HIBERNATE
deriving DecidableEq

open SleepOperation

/-- The C implicit conversion of an `int` to `bool`: nonzero is `true`. -/
def intToBool (r : Int) : Bool := decide (r ≠ 0)

/-- The C implicit conversion of a `bool` to `int`: `true` is `1`. -/
def boolToInt (b : Bool) : Int := if b then 1 else 0

/-- The `SleepConfig` structure (sleep-config.h): per-operation mode and
state candidate lists, per-operation allow flags, and the two durations. -/
structure SleepConfig where
  modes : SleepOperation → List String
  states : SleepOperation → List String
  allow : SleepOperation → Bool
  hibernate_delay_usec : Nat
  suspend_estimation_usec : Nat

/-- Environment of oracles: outcomes of the kernel pseudo-file accesses
(`/sys/power/state`, `/sys/power/disk`) and of the two resource
collaborators.  `state_access_errno` / `disk_access_errno` are the (positive)
`errno` produced when `access(..., W_OK)` fails; `state_read_err` /
`disk_read_err` are the (negative) returns of a failing
`read_one_line_file`; `state_words` is the outcome of tokenizing the state
file line (a parse error or the word list); `disk_words` are the words
`extract_first_word` yields from the disk file line, after which
`disk_parse_err` (if some) is the extraction error. -/
structure Env where
  state_writable : Bool
  state_access_errno : Int
  state_read_err : Option Int
  state_words : Except Int (List String)
  disk_writable : Bool
  disk_access_errno : Int
  disk_read_err : Option Int
  disk_words : List String
  disk_parse_err : Option Int
  enough_swap : Bool
  clock_boottime_alarm : Bool

/-- Modelled from the spec: `string_contains_word_strv` (string-util, not in
src/) tokenizes the line on whitespace and reports whether any token appears
in the strv, returning a negative error if the line cannot be tokenized,
`0` on no match and positive on a match.  The tokenization outcome is
supplied by the oracle as `words`. -/
def string_contains_word_strv (words : Except Int (List String)) (strv : List String) : Int :=
  match words with
  | .error e => e
  | .ok ws => if ws.any (fun w => strv.contains w) then 1 else 0

/-- `sleep_state_supported` (sleep-config.c:115-143): `-ENOMSG` on an empty
candidate list, `-errno` when `/sys/power/state` is not writable, a negative
error when reading or parsing fails, else whether any configured state is a
word of the file's single line. -/
def sleep_state_supported (env : Env) (states : List String) : Int :=
  if states.isEmpty then -ENOMSG
  else if env.state_writable = false then -env.state_access_errno
  else
    match env.state_read_err with
    | some e => e
    | none => string_contains_word_strv env.state_words states

/-- The bracket strip of sleep_mode_supported (sleep-config.c:173-179): if
the word begins with one leading character and ends with one trailing
character of a bracket pair, exactly that pair is removed; otherwise the
word is left untouched. -/
def strip_brackets (w : String) : String :=
  if w ≠ "" ∧ w.front = '[' ∧ w.back = ']' then (w.drop 1).dropRight 1 else w

/-- The scanning loop of sleep_mode_supported (sleep-config.c:162-185):
each extracted word is bracket-stripped and tested for membership in the
configured modes; the first match yields `1`; when the words are exhausted,
a pending extraction error is returned, else `0`. -/
def mode_scan (modes : List String) (ws : List String) (perr : Option Int) : Int :=
  match ws with
  | [] =>
    match perr with
    | some e => e
    | none => 0
  | w :: rest =>
    if modes.contains (strip_brackets w) then 1
    else mode_scan modes rest perr

/-- `sleep_mode_supported` (sleep-config.c:145-192): an empty candidate list
is supported immediately (kernel default), `-errno` when `/sys/power/disk`
is not writable, a negative error when reading fails, else the result of
scanning the file's words. -/
def sleep_mode_supported (env : Env) (modes : List String) : Int :=
  if modes.isEmpty then 1
  else if env.disk_writable = false then -env.disk_access_errno
  else
    match env.disk_read_err with
    | some e => e
    | none => mode_scan modes env.disk_words env.disk_parse_err

/-- The primitive-operation tail of `can_sleep_internal`
(sleep-config.c:239-249): any non-positive state or mode probe result
collapses to `false` (0); Suspend then succeeds; Hibernate and HybridSleep
additionally require `enough_swap_for_hibernation()`, failing with
`-ENOSPC`. -/
def can_sleep_internal_prim (cfg : SleepConfig) (env : Env) (op : SleepOperation) : Int :=
  if sleep_state_supported env (cfg.states op) ≤ 0 ∨
     sleep_mode_supported env (cfg.modes op) ≤ 0 then 0
  else if op = SLEEP_SUSPEND then 1
  else if env.enough_swap = false then -ENOSPC
  else 1

/-- One iteration of the aggregation loop of `can_s2h`
(sleep-config.c:210-218) applied to the recursive result `r`:
`some b` means can_s2h returns `b` now, `none` means the loop continues.
`IN_SET(r, 0, -ENOSPC)` returns `false`; any other negative `r` executes
`return log_debug_errno(r, ...)`, whose value `r` is converted by can_s2h's
`bool` return type into the C bool `r != 0`. -/
def s2h_step (r : Int) : Option Bool :=
  if r = 0 ∨ r = -ENOSPC then some false
  else if r < 0 then some (intToBool r)
  else none

/-- `can_s2h` (sleep-config.c:196-221) as a function of the results of the
two recursive `can_sleep_internal(sleep_config, operations[i], false)`
calls, supplied as `sub`: `false` unless `CLOCK_BOOTTIME_ALARM` is
supported, then the loop over `SLEEP_SUSPEND`, `SLEEP_HIBERNATE`, then
`true`. -/
def can_s2h_with (sub : SleepOperation → Int) (clock_alarm : Bool) : Bool :=
  if clock_alarm = false then false
  else
    match s2h_step (sub SLEEP_SUSPEND) with
    | some b => b
    | none =>
      match s2h_step (sub SLEEP_HIBERNATE) with
      | some b => b
      | none => true

/-- `can_s2h` (sleep-config.c:196-221).  Its recursive calls
`can_sleep_internal(sleep_config, op, false)` are made with
`check_allowed = false` on the primitive operations Suspend and Hibernate,
for which the body of `can_sleep_internal` is exactly
`can_sleep_internal_prim` (the allow gate is skipped and the composite
branch is not taken); the lemma `can_sleep_internal_false_eq_prim` below
discharges this identification. -/
def can_s2h (cfg : SleepConfig) (env : Env) : Bool :=
  can_s2h_with (fun op => can_sleep_internal_prim cfg env op) env.clock_boottime_alarm

/-- `can_sleep_internal` (sleep-config.c:223-250): the allow gate when
`check_allowed`, the composite delegation to `can_s2h` (whose `bool` result
is converted back to `int`), else the primitive path. -/
def can_sleep_internal (cfg : SleepConfig) (env : Env) (op : SleepOperation)
    (check_allowed : Bool) : Int :=
  if check_allowed = true ∧ cfg.allow op = false then 0
  else if op = SLEEP_SUSPEND_THEN_HIBERNATE then boolToInt (can_s2h cfg env)
  else can_sleep_internal_prim cfg env op

/-- Outcome of the `config_parse_config_file("sleep.conf", ...)` call
(sleep-config.c:62-82) as seen by `parse_sleep_config`: the four tristate
allow keys (`-1` = unset, else the parsed boolean as `0`/`1`), the six
optional strv keys (`none` = the corresponding pointer stayed NULL), and
the two optional durations (`none` = key absent, the field keeps its
initial value). -/
structure RawConfig where
  allow_suspend : Int
  allow_hibernate : Int
  allow_s2h : Int
  allow_hybrid_sleep : Int
  suspend_modes : Option (List String)
  suspend_states : Option (List String)
  hibernate_modes : Option (List String)
  hibernate_states : Option (List String)
  hybrid_sleep_modes : Option (List String)
  hybrid_sleep_states : Option (List String)
  hibernate_delay_usec : Option Nat
  suspend_estimation_usec : Option Nat

/-- `parse_sleep_config` (sleep-config.c:48-113) after a successful parse:
`hibernate_delay_usec` starts at `USEC_INFINITY` (line 58-60) and is only
overwritten when configured; the allow flags are derived from the tristates
(lines 85-90, with the C int-to-bool conversion `!= 0`); the default
candidate lists are installed for unset entries (lines 92-101); a zero
`suspend_estimation_usec` is replaced by the one-hour default
(lines 102-103). -/
def parse_sleep_config (raw : RawConfig) : SleepConfig :=
  { modes := fun op =>
      match op with
      | SLEEP_SUSPEND => raw.suspend_modes.getD []
      | SLEEP_HIBERNATE => raw.hibernate_modes.getD ["platform", "shutdown"]
      | SLEEP_HYBRID_SLEEP => raw.hybrid_sleep_modes.getD ["suspend", "platform", "shutdown"]
      | SLEEP_SUSPEND_THEN_HIBERNATE => []
    states := fun op =>
      match op with
      | SLEEP_SUSPEND => raw.suspend_states.getD ["mem", "standby", "freeze"]
      | SLEEP_HIBERNATE => raw.hibernate_states.getD ["disk"]
      | SLEEP_HYBRID_SLEEP => raw.hybrid_sleep_states.getD ["disk"]
      | SLEEP_SUSPEND_THEN_HIBERNATE => []
    allow := fun op =>
      match op with
      | SLEEP_SUSPEND => decide (raw.allow_suspend ≠ 0)
      | SLEEP_HIBERNATE => decide (raw.allow_hibernate ≠ 0)
      | SLEEP_HYBRID_SLEEP =>
        if 0 ≤ raw.allow_hybrid_sleep then decide (raw.allow_hybrid_sleep ≠ 0)
        else decide (raw.allow_suspend ≠ 0 ∧ raw.allow_hibernate ≠ 0)
      | SLEEP_SUSPEND_THEN_HIBERNATE =>
        if 0 ≤ raw.allow_s2h then decide (raw.allow_s2h ≠ 0)
        else decide (raw.allow_suspend ≠ 0 ∧ raw.allow_hibernate ≠ 0)
    hibernate_delay_usec := raw.hibernate_delay_usec.getD USEC_INFINITY
    suspend_estimation_usec :=
      if raw.suspend_estimation_usec.getD 0 = 0 then DEFAULT_SUSPEND_ESTIMATION_USEC
      else raw.suspend_estimation_usec.getD 0 }

/-- `can_sleep` (sleep-config.c:252-261): parse a fresh configuration, then
decide with `check_allowed = true`.  (The only parse failure is an
out-of-memory condition, outside this model.) -/
def can_sleep (raw : RawConfig) (env : Env) (op : SleepOperation) : Int :=
  can_sleep_internal (parse_sleep_config raw) env op true

/-! ### Concrete fixtures -/

/-- An environment in which every probe succeeds: both kernel files are
writable and readable, the state file tokenizes to `stws`, the disk file to
`dkws`, swap suffices and the wake-alarm clock exists. -/
def env_ok (stws : List String) (dkws : List String) : Env :=
  { state_writable := true, state_access_errno := 13, state_read_err := none,
    state_words := .ok stws, disk_writable := true, disk_access_errno := 13,
    disk_read_err := none, disk_words := dkws, disk_parse_err := none,
    enough_swap := true, clock_boottime_alarm := true }

/-- The parse outcome when `sleep.conf` sets nothing at all. -/
def raw_unset : RawConfig :=
  { allow_suspend := -1, allow_hibernate := -1, allow_s2h := -1,
    allow_hybrid_sleep := -1, suspend_modes := none, suspend_states := none,
    hibernate_modes := none, hibernate_states := none,
    hybrid_sleep_modes := none, hybrid_sleep_states := none,
    hibernate_delay_usec := none, suspend_estimation_usec := none }

/-- The all-default configuration. -/
def cfg_default : SleepConfig := parse_sleep_config raw_unset

/-- A healthy environment whose kernel reports the default suspend and
hibernate vocabulary: states `mem disk`, disk modes `[platform] shutdown`. -/
def env_s2h : Env := env_ok ["mem", "disk"] ["[platform]", "shutdown"]

/-- Same kernel content as `env_s2h` with the state words and disk words
listed in a different order. -/
def env_s2h_perm : Env := env_ok ["disk", "mem"] ["shutdown", "[platform]"]

/-- Environment whose `/sys/power/state` line cannot be tokenized: the
parse fails with `-EINVAL` (-22). -/
def env_state_parsefail : Env :=
  { env_ok [] [] with state_words := .error (-22) }

/-- The parse outcome when the administrator sets only `AllowSuspend=no`. -/
def raw_nosuspend : RawConfig := { raw_unset with allow_suspend := 0 }

/-- The default configuration with every state list emptied. -/
def cfg_nostate : SleepConfig := { cfg_default with states := fun _ => [] }

/-! ### Shared helper lemmas -/

/-- With `check_allowed = false`, `can_sleep_internal` on a primitive
operation is exactly the primitive path: the identification used by
`can_s2h` for its recursive calls. -/
theorem can_sleep_internal_false_eq_prim (cfg : SleepConfig) (env : Env)
    (op : SleepOperation) (hop : op ≠ SLEEP_SUSPEND_THEN_HIBERNATE) :
    can_sleep_internal cfg env op false = can_sleep_internal_prim cfg env op := by
  simp [can_sleep_internal, hop]

/-- A non-positive state or mode probe result makes `can_sleep_internal`
return `0` on a primitive operation, whatever `check_allowed` is. -/
theorem internal_zero_of_probe_nonpos (cfg : SleepConfig) (env : Env)
    (op : SleepOperation) (c : Bool) (hop : op ≠ SLEEP_SUSPEND_THEN_HIBERNATE)
    (herr : sleep_state_supported env (cfg.states op) ≤ 0 ∨
            sleep_mode_supported env (cfg.modes op) ≤ 0) :
    can_sleep_internal cfg env op c = 0 := by
  by_cases hc : c = true ∧ cfg.allow op = false
  · simp [can_sleep_internal, hc]
  · have h1 : can_sleep_internal cfg env op c = can_sleep_internal_prim cfg env op := by
      simp [can_sleep_internal, hc, hop]
    rw [h1]
    unfold can_sleep_internal_prim
    rw [if_pos herr]

/-- The primitive path returns only `0`, `1` or `-ENOSPC`. -/
theorem prim_mem (cfg : SleepConfig) (env : Env) (op : SleepOperation) :
    can_sleep_internal_prim cfg env op = 0 ∨ can_sleep_internal_prim cfg env op = 1 ∨
      can_sleep_internal_prim cfg env op = -ENOSPC := by
  unfold can_sleep_internal_prim
  by_cases h1 : sleep_state_supported env (cfg.states op) ≤ 0 ∨
      sleep_mode_supported env (cfg.modes op) ≤ 0
  · left; rw [if_pos h1]
  · rw [if_neg h1]
    by_cases h2 : op = SLEEP_SUSPEND
    · right; left; rw [if_pos h2]
    · rw [if_neg h2]
      by_cases h3 : env.enough_swap = false
      · right; right; rw [if_pos h3]
      · right; left; rw [if_neg h3]

theorem s2h_step_zero : s2h_step 0 = some false := by decide

theorem s2h_step_one : s2h_step 1 = none := by decide

theorem s2h_step_enospc : s2h_step (-ENOSPC) = some false := by decide

/-- `List.any` is invariant under permutation. -/
theorem any_congr_perm {l1 l2 : List String} (p : String → Bool) (h : l1.Perm l2) :
    l1.any p = l2.any p := by
  cases h1 : l1.any p with
  | true =>
    obtain ⟨x, hx, hpx⟩ := List.any_eq_true.mp h1
    exact (List.any_eq_true.mpr ⟨x, h.mem_iff.mp hx, hpx⟩).symm
  | false =>
    cases h2 : l2.any p with
    | false => rfl
    | true =>
      obtain ⟨x, hx, hpx⟩ := List.any_eq_true.mp h2
      have h3 := List.any_eq_true.mpr ⟨x, h.mem_iff.mpr hx, hpx⟩
      rw [h1] at h3
      exact absurd h3 (by simp)

/-- `List.contains` is invariant under permutation of the list. -/
theorem contains_congr_perm {l1 l2 : List String} (a : String) (h : l1.Perm l2) :
    l1.contains a = l2.contains a := by
  by_cases hm : a ∈ l1
  · have g1 : l1.contains a = true := List.elem_iff.mpr hm
    have g2 : l2.contains a = true := List.elem_iff.mpr (h.mem_iff.mp hm)
    rw [g1, g2]
  · have g1 : l1.contains a = false := by
      cases hc : l1.contains a with
      | false => rfl
      | true => exact absurd (List.elem_iff.mp hc) hm
    have g2 : l2.contains a = false := by
      cases hc : l2.contains a with
      | false => rfl
      | true => exact absurd (h.mem_iff.mpr (List.elem_iff.mp hc)) hm
    rw [g1, g2]

/-- Without a pending extraction error, the scanning loop is the `any` of
bracket-stripped membership over the kernel words. -/
theorem mode_scan_none_eq (modes ws : List String) :
    mode_scan modes ws none =
      if ws.any (fun w => modes.contains (strip_brackets w)) then 1 else 0 := by
  induction ws with
  | nil => rfl
  | cons w rest ih =>
    cases h : modes.contains (strip_brackets w) with
    | true =>
      have hm : strip_brackets w ∈ modes := List.elem_iff.mp h
      simp [mode_scan, h, hm]
    | false =>
      have hm : strip_brackets w ∉ modes := fun hmem => by
        have h2 : modes.contains (strip_brackets w) = true := List.elem_iff.mpr hmem
        rw [h] at h2
        exact Bool.noConfusion h2
      simp [mode_scan, h, ih, hm]

theorem boolToInt_pos (b : Bool) : 0 < boolToInt b ↔ b = true := by
  cases b <;> simp [boolToInt]

/-- The primitive path is positive exactly when it is `1`. -/
theorem prim_pos_iff (cfg : SleepConfig) (env : Env) (op : SleepOperation) :
    0 < can_sleep_internal_prim cfg env op ↔ can_sleep_internal_prim cfg env op = 1 := by
  rcases prim_mem cfg env op with h | h | h <;> rw [h] <;> decide

/-- With the allow gate passing, `can_sleep_internal` on the composite
operation is the int conversion of `can_s2h`. -/
theorem internal_s2h_eq (cfg : SleepConfig) (env : Env) (c : Bool)
    (hallow : c = false ∨ cfg.allow SLEEP_SUSPEND_THEN_HIBERNATE = true) :
    can_sleep_internal cfg env SLEEP_SUSPEND_THEN_HIBERNATE c = boolToInt (can_s2h cfg env) := by
  have hgate : ¬(c = true ∧ cfg.allow SLEEP_SUSPEND_THEN_HIBERNATE = false) := by
    rcases hallow with h | h <;> simp [h]
  simp [can_sleep_internal, hgate]

/-- `can_s2h` succeeds exactly when the wake-alarm clock is supported and
both primitive sub-checks return `1`. -/
theorem can_s2h_iff (cfg : SleepConfig) (env : Env) :
    can_s2h cfg env = true ↔
      (env.clock_boottime_alarm = true ∧
       can_sleep_internal_prim cfg env SLEEP_SUSPEND = 1 ∧
       can_sleep_internal_prim cfg env SLEEP_HIBERNATE = 1) := by
  simp only [can_s2h, can_s2h_with]
  rcases prim_mem cfg env SLEEP_SUSPEND with h1 | h1 | h1 <;>
    rcases prim_mem cfg env SLEEP_HIBERNATE with h2 | h2 | h2 <;>
      rw [h1, h2] <;>
      cases hcl : env.clock_boottime_alarm <;>
      simp [hcl, s2h_step, ENOSPC, intToBool]

/-- A probed-and-successful state check, expressed through the word oracle. -/
theorem state_supported_words (env : Env) (states ws : List String)
    (hne : states ≠ []) (hw : env.state_writable = true)
    (hr : env.state_read_err = none) (hv : env.state_words = .ok ws) :
    sleep_state_supported env states =
      if ws.any (fun w => states.contains w) then 1 else 0 := by
  unfold sleep_state_supported
  rw [if_neg (by simp [hne]), if_neg (by simp [hw]), hr, hv]
  rfl

/-- A probed mode check without parse error, expressed through the word
oracle. -/
theorem mode_supported_words (env : Env) (modes : List String)
    (hne : modes ≠ []) (hw : env.disk_writable = true)
    (hr : env.disk_read_err = none) (hp : env.disk_parse_err = none) :
    sleep_mode_supported env modes =
      if env.disk_words.any (fun w => modes.contains (strip_brackets w)) then 1 else 0 := by
  unfold sleep_mode_supported
  rw [if_neg (by simp [hne]), if_neg (by simp [hw]), hr, hp, mode_scan_none_eq]

theorem any_contains_iff (ws states : List String) :
    ws.any (fun w => states.contains w) = true ↔ ∃ w ∈ ws, w ∈ states := by
  rw [List.any_eq_true]
  constructor
  · rintro ⟨x, hx, hpx⟩; exact ⟨x, hx, List.elem_iff.mp hpx⟩
  · rintro ⟨x, hx, hpx⟩; exact ⟨x, hx, List.elem_iff.mpr hpx⟩

theorem any_contains_strip_iff (ts modes : List String) :
    ts.any (fun w => modes.contains (strip_brackets w)) = true ↔
      ∃ w ∈ ts, strip_brackets w ∈ modes := by
  rw [List.any_eq_true]
  constructor
  · rintro ⟨x, hx, hpx⟩; exact ⟨x, hx, List.elem_iff.mp hpx⟩
  · rintro ⟨x, hx, hpx⟩; exact ⟨x, hx, List.elem_iff.mpr hpx⟩

/-! ### Claims -/

/-- C1: evaluating the composite aggregation of `can_s2h` at the failing
input (wake-alarm clock supported, recursive Suspend sub-check yielding the
error `-EINVAL` = -22, Hibernate sub-check yielding 1): the negative errno
returned through `can_s2h`'s `bool` return type becomes `true`, so the
composite verdict is `1` (Yes) — the error is not propagated unchanged as
the claim requires. -/
theorem c1_error_swallowed_into_yes :
    can_s2h_with (fun op => if op = SLEEP_SUSPEND then -22 else 1) true = true ∧
    boolToInt (can_s2h_with (fun op => if op = SLEEP_SUSPEND then -22 else 1) true) = 1 := by
  constructor
  · decide
  · decide

/-- C2 counterexample: with all defaults configured and a `/sys/power/state`
line whose tokenization fails with `-EINVAL` (-22), `sleep_state_supported`
ends in that parse error, yet `can_sleep_internal` on Suspend returns `0`
(No) instead of propagating `-22` to its caller — refuting the claim that
a ParseFailure from a check is propagated as a hard error. -/
theorem c2_counterexample :
    sleep_state_supported env_state_parsefail (cfg_default.states SLEEP_SUSPEND) = -22 ∧
    can_sleep_internal cfg_default env_state_parsefail SLEEP_SUSPEND true = 0 := by
  constructor
  · decide
  · decide

/-- C2 (amended): for every primitive operation, any non-positive outcome of
the state or mode support check — `Unsupported` as well as every
`Error(kind)`, including `NotWritable`, `Unconfigured`, `ParseFailure` and
other I/O errors — makes `can_sleep_internal` return `0` (No); no error is
propagated from the primitive path. -/
theorem c2_amended_all_errors_become_no (cfg : SleepConfig) (env : Env)
    (op : SleepOperation) (c : Bool) (hop : op ≠ SLEEP_SUSPEND_THEN_HIBERNATE)
    (herr : sleep_state_supported env (cfg.states op) ≤ 0 ∨
            sleep_mode_supported env (cfg.modes op) ≤ 0) :
    can_sleep_internal cfg env op c = 0 :=
  internal_zero_of_probe_nonpos cfg env op c hop herr

/-- C2 witness: the amended theorem applied at the ParseFailure input. -/
theorem c2_amended_witness :
    can_sleep_internal cfg_default env_state_parsefail SLEEP_SUSPEND true = 0 :=
  c2_amended_all_errors_become_no cfg_default env_state_parsefail SLEEP_SUSPEND true
    (by decide) (Or.inl (by decide))

/-- C5: the state support check on an empty candidate list returns
`Error(Unconfigured)` = `-ENOMSG`, and for a primitive operation whose
configured state list is empty `can_sleep_internal` returns `0` (No, never
Yes); by contrast the mode support check on an empty candidate list returns
`Supported` (1) for every environment — independent of the mode file's
accessibility and content. -/
theorem c5_empty_candidate_lists (cfg : SleepConfig) (env : Env)
    (op : SleepOperation) (c : Bool) (hop : op ≠ SLEEP_SUSPEND_THEN_HIBERNATE)
    (hempty : cfg.states op = []) :
    sleep_state_supported env [] = -ENOMSG ∧
    can_sleep_internal cfg env op c = 0 ∧
    (∀ env2 : Env, sleep_mode_supported env2 [] = 1) := by
  refine ⟨rfl, ?_, fun env2 => rfl⟩
  refine internal_zero_of_probe_nonpos cfg env op c hop (Or.inl ?_)
  rw [hempty]
  show -ENOMSG ≤ 0
  decide

/-- C5 witness: the theorem applied to the default configuration with all
state lists emptied, for Suspend in a healthy environment. -/
theorem c5_witness :
    sleep_state_supported env_s2h [] = -ENOMSG ∧
    can_sleep_internal cfg_nostate env_s2h SLEEP_SUSPEND true = 0 ∧
    (∀ env2 : Env, sleep_mode_supported env2 [] = 1) :=
  c5_empty_candidate_lists cfg_nostate env_s2h SLEEP_SUSPEND true (by decide) rfl

/-- C6: whenever the loaded configuration forbids an operation, the
top-level query `can_sleep` (which enforces the allow policy) returns `0`
(No) for every environment whatsoever — the kernel files, the swap oracle
and the wake-alarm oracle cannot influence the verdict. -/
theorem c6_policy_veto_is_immediate (raw : RawConfig) (op : SleepOperation)
    (h : (parse_sleep_config raw).allow op = false) :
    ∀ env : Env, can_sleep raw env op = 0 := by
  intro env
  simp [can_sleep, can_sleep_internal, h]

/-- C6 witness: `AllowSuspend=no` makes `can_sleep(Suspend)` return No in a
fully healthy environment. -/
theorem c6_witness : can_sleep raw_nosuspend env_s2h SLEEP_SUSPEND = 0 :=
  c6_policy_veto_is_immediate raw_nosuspend SLEEP_SUSPEND (by decide) env_s2h

/-- C3: provided the allow gate passes, the composite SuspendThenHibernate
decision is positive (Yes) exactly when the wake-alarm clock oracle is true
and both recursive decisions — Suspend and Hibernate with allow-enforcement
disabled — are positive; and whenever the wake-alarm oracle is false the
composite returns `0` (No) for either value of the enforcement flag. -/
theorem c3_composite_characterization (cfg : SleepConfig) (env : Env) (c : Bool)
    (hallow : c = false ∨ cfg.allow SLEEP_SUSPEND_THEN_HIBERNATE = true) :
    (0 < can_sleep_internal cfg env SLEEP_SUSPEND_THEN_HIBERNATE c ↔
      (env.clock_boottime_alarm = true ∧
       0 < can_sleep_internal cfg env SLEEP_SUSPEND false ∧
       0 < can_sleep_internal cfg env SLEEP_HIBERNATE false)) ∧
    (env.clock_boottime_alarm = false →
      ∀ c2 : Bool, can_sleep_internal cfg env SLEEP_SUSPEND_THEN_HIBERNATE c2 = 0) := by
  constructor
  · rw [internal_s2h_eq cfg env c hallow, boolToInt_pos, can_s2h_iff,
      can_sleep_internal_false_eq_prim cfg env SLEEP_SUSPEND (by decide),
      can_sleep_internal_false_eq_prim cfg env SLEEP_HIBERNATE (by decide),
      prim_pos_iff, prim_pos_iff]
  · intro hcl c2
    by_cases hg : c2 = true ∧ cfg.allow SLEEP_SUSPEND_THEN_HIBERNATE = false
    · simp [can_sleep_internal, hg]
    · have hz : can_s2h cfg env = false := by
        simp only [can_s2h, can_s2h_with]
        rw [hcl]
        simp
      simp [can_sleep_internal, hg, hz, boolToInt]

/-- C3 witness: the characterization at the all-default configuration in a
healthy environment, with enforcement on and the composite allowed. -/
theorem c3_witness :
    (0 < can_sleep_internal cfg_default env_s2h SLEEP_SUSPEND_THEN_HIBERNATE true ↔
      (env_s2h.clock_boottime_alarm = true ∧
       0 < can_sleep_internal cfg_default env_s2h SLEEP_SUSPEND false ∧
       0 < can_sleep_internal cfg_default env_s2h SLEEP_HIBERNATE false)) ∧
    (env_s2h.clock_boottime_alarm = false →
      ∀ c2 : Bool, can_sleep_internal cfg_default env_s2h SLEEP_SUSPEND_THEN_HIBERNATE c2 = 0) :=
  c3_composite_characterization cfg_default env_s2h true (Or.inr (by decide))

/-- C4: when both probes report Supported and the allow gate passes, a
Hibernate or HybridSleep decision is `1` (Yes) when the swap oracle is true
and `Error(ResourceExhausted)` = `-ENOSPC` when it is false, while a Suspend
decision is `1` for either value of the swap oracle — the swap check is
never consulted for Suspend. -/
theorem c4_swap_requirement (cfg : SleepConfig) (env : Env) (op : SleepOperation) (c : Bool)
    (hallow : c = false ∨ cfg.allow op = true)
    (hstate : 0 < sleep_state_supported env (cfg.states op))
    (hmode : 0 < sleep_mode_supported env (cfg.modes op)) :
    ((op = SLEEP_HIBERNATE ∨ op = SLEEP_HYBRID_SLEEP) →
      can_sleep_internal cfg env op c = (if env.enough_swap = true then 1 else -ENOSPC)) ∧
    (op = SLEEP_SUSPEND →
      ∀ b : Bool, can_sleep_internal cfg { env with enough_swap := b } op c = 1) := by
  have hgate : ¬(c = true ∧ cfg.allow op = false) := by
    rcases hallow with h | h <;> simp [h]
  have hnp : ¬(sleep_state_supported env (cfg.states op) ≤ 0 ∨
      sleep_mode_supported env (cfg.modes op) ≤ 0) := by
    rintro (h | h)
    · exact absurd hstate (not_lt.mpr h)
    · exact absurd hmode (not_lt.mpr h)
  constructor
  · intro hop
    have hcomp : op ≠ SLEEP_SUSPEND_THEN_HIBERNATE := by
      rcases hop with h | h <;> subst h <;> decide
    have hsus : op ≠ SLEEP_SUSPEND := by
      rcases hop with h | h <;> subst h <;> decide
    have hrw : can_sleep_internal cfg env op c = can_sleep_internal_prim cfg env op := by
      simp [can_sleep_internal, hgate, hcomp]
    rw [hrw]
    unfold can_sleep_internal_prim
    rw [if_neg hnp, if_neg hsus]
    cases henv : env.enough_swap <;> simp [henv]
  · intro hop b
    subst hop
    have hrw : can_sleep_internal cfg { env with enough_swap := b } SLEEP_SUSPEND c =
        can_sleep_internal_prim cfg { env with enough_swap := b } SLEEP_SUSPEND := by
      simp [can_sleep_internal, hgate]
    rw [hrw]
    have hnp2 : ¬(sleep_state_supported { env with enough_swap := b }
          (cfg.states SLEEP_SUSPEND) ≤ 0 ∨
        sleep_mode_supported { env with enough_swap := b } (cfg.modes SLEEP_SUSPEND) ≤ 0) := hnp
    unfold can_sleep_internal_prim
    rw [if_neg hnp2, if_pos rfl]

/-- C4 witness: Hibernate in the default configuration against a healthy
kernel: Yes with enough swap (and the theorem instance also covers the
counterfactual clause for Suspend vacuously). -/
theorem c4_witness :
    ((SLEEP_HIBERNATE = SLEEP_HIBERNATE ∨ SLEEP_HIBERNATE = SLEEP_HYBRID_SLEEP) →
      can_sleep_internal cfg_default env_s2h SLEEP_HIBERNATE true =
        (if env_s2h.enough_swap = true then 1 else -ENOSPC)) ∧
    (SLEEP_HIBERNATE = SLEEP_SUSPEND →
      ∀ b : Bool,
        can_sleep_internal cfg_default { env_s2h with enough_swap := b } SLEEP_HIBERNATE true = 1) :=
  c4_swap_requirement cfg_default env_s2h SLEEP_HIBERNATE true (Or.inr (by decide))
    (by decide) (by decide)

/-- C7: over the three-state domain of the four administrator allow
settings (-1 unset, 0 false, 1 true), the loaded configuration's
`allow[HybridSleep]` and `allow[SuspendThenHibernate]` equal the explicit
setting when one is present (value ≥ 0), and otherwise are `true` exactly
when both the Suspend and the Hibernate settings are allowed or
unconfigured (neither is explicitly false). -/
theorem c7_allow_derivation (raw : RawConfig)
    (hs : raw.allow_suspend = -1 ∨ raw.allow_suspend = 0 ∨ raw.allow_suspend = 1)
    (hh : raw.allow_hibernate = -1 ∨ raw.allow_hibernate = 0 ∨ raw.allow_hibernate = 1)
    (hy : raw.allow_hybrid_sleep = -1 ∨ raw.allow_hybrid_sleep = 0 ∨ raw.allow_hybrid_sleep = 1)
    (h2 : raw.allow_s2h = -1 ∨ raw.allow_s2h = 0 ∨ raw.allow_s2h = 1) :
    (0 ≤ raw.allow_hybrid_sleep →
      (parse_sleep_config raw).allow SLEEP_HYBRID_SLEEP = decide (raw.allow_hybrid_sleep = 1)) ∧
    (raw.allow_hybrid_sleep < 0 →
      ((parse_sleep_config raw).allow SLEEP_HYBRID_SLEEP = true ↔
        ((raw.allow_suspend = -1 ∨ raw.allow_suspend = 1) ∧
         (raw.allow_hibernate = -1 ∨ raw.allow_hibernate = 1)))) ∧
    (0 ≤ raw.allow_s2h →
      (parse_sleep_config raw).allow SLEEP_SUSPEND_THEN_HIBERNATE = decide (raw.allow_s2h = 1)) ∧
    (raw.allow_s2h < 0 →
      ((parse_sleep_config raw).allow SLEEP_SUSPEND_THEN_HIBERNATE = true ↔
        ((raw.allow_suspend = -1 ∨ raw.allow_suspend = 1) ∧
         (raw.allow_hibernate = -1 ∨ raw.allow_hibernate = 1)))) := by
  rcases hs with hs | hs | hs <;> rcases hh with hh | hh | hh <;>
    rcases hy with hy | hy | hy <;> rcases h2 with h2 | h2 | h2 <;>
      simp [parse_sleep_config, hs, hh, hy, h2]

/-- C7 witness: the derivation at the all-unset configuration. -/
theorem c7_witness :
    (0 ≤ raw_unset.allow_hybrid_sleep →
      (parse_sleep_config raw_unset).allow SLEEP_HYBRID_SLEEP =
        decide (raw_unset.allow_hybrid_sleep = 1)) ∧
    (raw_unset.allow_hybrid_sleep < 0 →
      ((parse_sleep_config raw_unset).allow SLEEP_HYBRID_SLEEP = true ↔
        ((raw_unset.allow_suspend = -1 ∨ raw_unset.allow_suspend = 1) ∧
         (raw_unset.allow_hibernate = -1 ∨ raw_unset.allow_hibernate = 1)))) ∧
    (0 ≤ raw_unset.allow_s2h →
      (parse_sleep_config raw_unset).allow SLEEP_SUSPEND_THEN_HIBERNATE =
        decide (raw_unset.allow_s2h = 1)) ∧
    (raw_unset.allow_s2h < 0 →
      ((parse_sleep_config raw_unset).allow SLEEP_SUSPEND_THEN_HIBERNATE = true ↔
        ((raw_unset.allow_suspend = -1 ∨ raw_unset.allow_suspend = 1) ∧
         (raw_unset.allow_hibernate = -1 ∨ raw_unset.allow_hibernate = 1)))) :=
  c7_allow_derivation raw_unset (Or.inl rfl) (Or.inl rfl) (Or.inl rfl) (Or.inl rfl)

/-- C8: a kernel token wrapped in exactly one bracket pair is compared after
stripping exactly that pair, so `"[platform]"` matches the candidate
`"platform"`; an unwrapped `"platform"` also matches; a malformed token
with only one of the two brackets is compared literally — it does not match
`"platform"`, only its own literal spelling. -/
theorem c8_bracket_stripping :
    strip_brackets "[platform]" = "platform" ∧
    sleep_mode_supported (env_ok [] ["[platform]"]) ["platform"] = 1 ∧
    sleep_mode_supported (env_ok [] ["platform"]) ["platform"] = 1 ∧
    strip_brackets "[platform" = "[platform" ∧
    strip_brackets "platform]" = "platform]" ∧
    sleep_mode_supported (env_ok [] ["[platform"]) ["platform"] = 0 ∧
    sleep_mode_supported (env_ok [] ["platform]"]) ["platform"] = 0 ∧
    sleep_mode_supported (env_ok [] ["[platform"]) ["[platform"] = 1 ∧
    strip_brackets "[[platform]]" = "[platform]" := by
  refine ⟨by decide, by decide, by decide, by decide, by decide, by decide, by decide,
    by decide, by decide⟩

/-- C9: with both kernel files readable and parseable and non-empty
candidate lists, the state and mode verdicts are invariant under
permutation of the candidate list and of the kernel token order, and each
verdict is Supported (`1`) exactly when the candidates intersect the
(bracket-stripped, for modes) kernel tokens. -/
theorem c9_order_invariance (env env2 : Env)
    (states states2 ws ws2 modes modes2 ts ts2 : List String)
    (hstp : states.Perm states2) (hwp : ws.Perm ws2)
    (hmp : modes.Perm modes2) (htp : ts.Perm ts2)
    (hsne : states ≠ []) (hmne : modes ≠ [])
    (hw1 : env.state_writable = true) (hw2 : env2.state_writable = true)
    (hr1 : env.state_read_err = none) (hr2 : env2.state_read_err = none)
    (hv1 : env.state_words = .ok ws) (hv2 : env2.state_words = .ok ws2)
    (hd1 : env.disk_writable = true) (hd2 : env2.disk_writable = true)
    (he1 : env.disk_read_err = none) (he2 : env2.disk_read_err = none)
    (ht1 : env.disk_words = ts) (ht2 : env2.disk_words = ts2)
    (hp1 : env.disk_parse_err = none) (hp2 : env2.disk_parse_err = none) :
    sleep_state_supported env states = sleep_state_supported env2 states2 ∧
    (sleep_state_supported env states = 1 ↔ ∃ w ∈ ws, w ∈ states) ∧
    sleep_mode_supported env modes = sleep_mode_supported env2 modes2 ∧
    (sleep_mode_supported env modes = 1 ↔ ∃ w ∈ ts, strip_brackets w ∈ modes) := by
  have hsne2 : states2 ≠ [] := fun h => hsne (List.Perm.eq_nil (h ▸ hstp))
  have hmne2 : modes2 ≠ [] := fun h => hmne (List.Perm.eq_nil (h ▸ hmp))
  have e1 := state_supported_words env states ws hsne hw1 hr1 hv1
  have e2 := state_supported_words env2 states2 ws2 hsne2 hw2 hr2 hv2
  have m1 := mode_supported_words env modes hmne hd1 he1 hp1
  have m2 := mode_supported_words env2 modes2 hmne2 hd2 he2 hp2
  rw [ht1] at m1
  rw [ht2] at m2
  have keyS : ws.any (fun w => states.contains w) = ws2.any (fun w => states2.contains w) := by
    rw [any_congr_perm _ hwp]
    exact congrArg ws2.any (funext fun w => contains_congr_perm w hstp)
  have keyM : ts.any (fun w => modes.contains (strip_brackets w)) =
      ts2.any (fun w => modes2.contains (strip_brackets w)) := by
    rw [any_congr_perm _ htp]
    exact congrArg ts2.any (funext fun w => contains_congr_perm (strip_brackets w) hmp)
  refine ⟨by rw [e1, e2, keyS], ?_, by rw [m1, m2, keyM], ?_⟩
  · rw [e1]
    by_cases h : ws.any (fun w => states.contains w) = true
    · rw [if_pos h]
      exact iff_of_true rfl ((any_contains_iff ws states).mp h)
    · rw [if_neg h]
      exact iff_of_false (by decide)
        (fun hc => h ((any_contains_iff ws states).mpr hc))
  · rw [m1]
    by_cases h : ts.any (fun w => modes.contains (strip_brackets w)) = true
    · rw [if_pos h]
      exact iff_of_true rfl ((any_contains_strip_iff ts modes).mp h)
    · rw [if_neg h]
      exact iff_of_false (by decide)
        (fun hc => h ((any_contains_strip_iff ts modes).mpr hc))

/-- C9 witness: the invariance applied to concrete permuted candidate lists
and the two environments that report the same kernel tokens in different
orders. -/
theorem c9_witness :
    sleep_state_supported env_s2h ["mem", "standby"] =
      sleep_state_supported env_s2h_perm ["standby", "mem"] ∧
    (sleep_state_supported env_s2h ["mem", "standby"] = 1 ↔
      ∃ w ∈ ["mem", "disk"], w ∈ ["mem", "standby"]) ∧
    sleep_mode_supported env_s2h ["platform", "shutdown"] =
      sleep_mode_supported env_s2h_perm ["shutdown", "platform"] ∧
    (sleep_mode_supported env_s2h ["platform", "shutdown"] = 1 ↔
      ∃ w ∈ ["[platform]", "shutdown"], strip_brackets w ∈ ["platform", "shutdown"]) :=
  c9_order_invariance env_s2h env_s2h_perm
    ["mem", "standby"] ["standby", "mem"] ["mem", "disk"] ["disk", "mem"]
    ["platform", "shutdown"] ["shutdown", "platform"]
    ["[platform]", "shutdown"] ["shutdown", "[platform]"]
    (by decide) (by decide) (by decide) (by decide) (by decide) (by decide)
    rfl rfl rfl rfl rfl rfl rfl rfl rfl rfl rfl rfl rfl rfl

/-- C10: when `HibernateDelaySec` is not configured, the loaded
configuration keeps `hibernate_delay_usec = USEC_INFINITY` (the `UINT64_MAX`
sentinel, not zero and not any finite default), whereas an unset or zero
`SuspendEstimationSec` is replaced by the one-hour default. -/
theorem c10_hibernate_delay_infinity (raw : RawConfig)
    (h : raw.hibernate_delay_usec = none) :
    (parse_sleep_config raw).hibernate_delay_usec = USEC_INFINITY ∧
    USEC_INFINITY = 2 ^ 64 - 1 ∧
    USEC_INFINITY ≠ 0 ∧
    ((raw.suspend_estimation_usec = none ∨ raw.suspend_estimation_usec = some 0) →
      (parse_sleep_config raw).suspend_estimation_usec = DEFAULT_SUSPEND_ESTIMATION_USEC) := by
  refine ⟨?_, rfl, by decide, ?_⟩
  · simp [parse_sleep_config, h]
  · rintro (h2 | h2) <;> simp [parse_sleep_config, h2]

/-- C10 witness: the all-unset configuration. -/
theorem c10_witness :
    (parse_sleep_config raw_unset).hibernate_delay_usec = USEC_INFINITY ∧
    USEC_INFINITY = 2 ^ 64 - 1 ∧
    USEC_INFINITY ≠ 0 ∧
    ((raw_unset.suspend_estimation_usec = none ∨ raw_unset.suspend_estimation_usec = some 0) →
      (parse_sleep_config raw_unset).suspend_estimation_usec =
        DEFAULT_SUSPEND_ESTIMATION_USEC) :=
  c10_hibernate_delay_infinity raw_unset rfl

end SleepConfigC
